import Mathlib

/-!
Shallow embedding of src/template/index.js (the shorelark browser driver
script).  The script sizes a canvas for the device pixel ratio, installs two
drawing helpers on the 2D context prototype, and runs an animation-frame
render loop over an external wasm simulation.

Modelling decisions:
* Numbers are `ℚ`.  The script does no float-specific arithmetic; every claim
  is about which expressions are computed, so exact arithmetic is faithful.
* `Math.sin`, `Math.cos` and `Math.PI` are opaque to the script; they are
  passed in as a `JsMath` record of symbolic parameters, so that the traced
  coordinates keep their exact shape from the source.
* The 2D drawing context is a state: a fill style, a stroke style, and the
  list of emitted drawing commands.  A `fill` command records the fill style
  that is active when it runs.
* The external simulation (lib-simulation-wasm) is opaque in the source, so
  it is a type parameter `S` with functions `step : S → S` and
  `world : S → World`.  Food and animal snapshots carry an `extra` payload
  of arbitrary type standing for whatever fields the wasm objects expose
  beyond the ones the script reads.
-/

/-- The `Math` functions the script uses, as symbolic parameters. -/
structure JsMath where
  sin : ℚ → ℚ
  cos : ℚ → ℚ
  pi : ℚ

/-- One drawing command emitted on the 2D context.  `fill` records the
fill style in force when it executes. -/
inductive DrawCmd where
  | beginPath : DrawCmd
  | moveTo (x y : ℚ) : DrawCmd
  | lineTo (x y : ℚ) : DrawCmd
  | arc (x y radius a0 a1 : ℚ) : DrawCmd
  | stroke : DrawCmd
  | fill (color : String) : DrawCmd
  | clearRect (x y w h : ℚ) : DrawCmd
  | scaleCmd (sx sy : ℚ) : DrawCmd
  deriving DecidableEq

/-- The 2D drawing context: mutable fields the script touches, plus the
trace of commands it has emitted. -/
structure Ctx where
  fillStyle : String
  strokeStyle : String
  commands : List DrawCmd
  deriving DecidableEq

namespace Ctx

/-- Append one command to the trace. -/
def emit (c : Ctx) (cmd : DrawCmd) : Ctx :=
  { c with commands := c.commands ++ [cmd] }

def beginPath (c : Ctx) : Ctx := c.emit DrawCmd.beginPath

def moveTo (c : Ctx) (x y : ℚ) : Ctx := c.emit (DrawCmd.moveTo x y)

def lineTo (c : Ctx) (x y : ℚ) : Ctx := c.emit (DrawCmd.lineTo x y)

def arc (c : Ctx) (x y radius a0 a1 : ℚ) : Ctx :=
  c.emit (DrawCmd.arc x y radius a0 a1)

def stroke (c : Ctx) : Ctx := c.emit DrawCmd.stroke

/-- The assignment `this.fillStyle = s`. -/
def setFillStyle (c : Ctx) (s : String) : Ctx := { c with fillStyle := s }

/-- `this.fill()` paints with the currently active fill style. -/
def fill (c : Ctx) : Ctx := c.emit (DrawCmd.fill c.fillStyle)

def clearRect (c : Ctx) (x y w h : ℚ) : Ctx :=
  c.emit (DrawCmd.clearRect x y w h)

def scale (c : Ctx) (sx sy : ℚ) : Ctx := c.emit (DrawCmd.scaleCmd sx sy)

/-- `CanvasRenderingContext2D.prototype.drawTriangle`, line for line from the
source. -/
def drawTriangle (m : JsMath) (c : Ctx) (x y size rotation : ℚ) : Ctx :=
  ((((((c.beginPath).moveTo
      (x - m.sin rotation * size * 1.5)
      (y + m.cos rotation * size * 1.5)).lineTo
      (x - m.sin (rotation + 2.0 / 3.0 * m.pi) * size)
      (y + m.cos (rotation + 2.0 / 3.0 * m.pi) * size)).lineTo
      (x - m.sin (rotation + 4.0 / 3.0 * m.pi) * size)
      (y + m.cos (rotation + 4.0 / 3.0 * m.pi) * size)).lineTo
      (x - m.sin rotation * size * 1.5)
      (y + m.cos rotation * size * 1.5)).stroke.setFillStyle
      "rgb(255, 255, 255)").fill

/-- `CanvasRenderingContext2D.prototype.drawCircle`, line for line from the
source. -/
def drawCircle (m : JsMath) (c : Ctx) (x y radius : ℚ) : Ctx :=
  ((c.beginPath.arc x y radius 0 (2.0 * m.pi)).setFillStyle
      "rgb(0, 255, 128)").fill

end Ctx

/-- The commands a single `drawTriangle` call appends to the trace. -/
def triangleTrace (m : JsMath) (x y size rotation : ℚ) : List DrawCmd :=
  [DrawCmd.beginPath,
   DrawCmd.moveTo (x - m.sin rotation * size * 1.5)
                  (y + m.cos rotation * size * 1.5),
   DrawCmd.lineTo (x - m.sin (rotation + 2.0 / 3.0 * m.pi) * size)
                  (y + m.cos (rotation + 2.0 / 3.0 * m.pi) * size),
   DrawCmd.lineTo (x - m.sin (rotation + 4.0 / 3.0 * m.pi) * size)
                  (y + m.cos (rotation + 4.0 / 3.0 * m.pi) * size),
   DrawCmd.lineTo (x - m.sin rotation * size * 1.5)
                  (y + m.cos rotation * size * 1.5),
   DrawCmd.stroke,
   DrawCmd.fill "rgb(255, 255, 255)"]

/-- The commands a single `drawCircle` call appends to the trace. -/
def circleTrace (m : JsMath) (x y radius : ℚ) : List DrawCmd :=
  [DrawCmd.beginPath,
   DrawCmd.arc x y radius 0 (2.0 * m.pi),
   DrawCmd.fill "rgb(0, 255, 128)"]

/-- A food snapshot from `simulation.world().foods`.  The script reads only
`x` and `y`; `extra` stands for any further data the wasm object carries. -/
structure Food (α : Type) where
  x : ℚ
  y : ℚ
  extra : α
  deriving DecidableEq

/-- An animal snapshot from `simulation.world().animals`.  The script reads
only `x`, `y` and `rotation`. -/
structure Animal (β : Type) where
  x : ℚ
  y : ℚ
  rotation : ℚ
  extra : β
  deriving DecidableEq

/-- The snapshot `simulation.world()` returns. -/
structure World (α β : Type) where
  foods : List (Food α)
  animals : List (Animal β)
  deriving DecidableEq

/-- The fields of a food snapshot the script reads. -/
def foodCore {α : Type} (f : Food α) : ℚ × ℚ := (f.x, f.y)

/-- The fields of an animal snapshot the script reads. -/
def animalCore {β : Type} (a : Animal β) : ℚ × ℚ × ℚ := (a.x, a.y, a.rotation)

/-- `function redraw()` from the source: clear the viewport rectangle, step
the simulation once, draw a circle per food, then a triangle per animal.
The simulation is opaque, so its state type `S`, its `step` and its `world`
are parameters.  Returns the stepped simulation and the updated context. -/
def redraw {S α β : Type} (m : JsMath) (step : S → S) (world : S → World α β)
    (viewportWidth viewportHeight : ℚ) (s : S) (c : Ctx) : S × Ctx :=
  let c1 := c.clearRect 0 0 viewportWidth viewportHeight
  let s1 := step s
  let c2 := (world s1).foods.foldl
    (fun acc food => acc.drawCircle m
      (food.x * viewportWidth)
      (food.y * viewportHeight)
      ((0.01 / 2.0) * viewportWidth)) c1
  let c3 := (world s1).animals.foldl
    (fun acc animal => acc.drawTriangle m
      (animal.x * viewportWidth)
      (animal.y * viewportHeight)
      (0.01 * viewportWidth)
      animal.rotation) c2
  (s1, c3)

/-- A CSS length such as the string built by `viewportWidth + px`. -/
structure CssSize where
  value : ℚ
  unit : String
  deriving DecidableEq

/-- The canvas element: buffer size, CSS size, and the result of
`getContext(2d)` (`none` models an undefined context). -/
structure CanvasElem where
  width : ℚ
  height : ℚ
  styleWidth : Option CssSize
  styleHeight : Option CssSize
  context2d : Option Ctx
  deriving DecidableEq

/-- The viewport sizing step (source lines 17-62): the initial `width` and
`height` are read first, the buffer is enlarged by `scale`, and the CSS size
is set back to the initial dimensions in px. -/
def setupViewport (v : CanvasElem) (scale : ℚ) : CanvasElem :=
  let viewportWidth := v.width
  let viewportHeight := v.height
  { v with
    width := viewportWidth * scale
    height := viewportHeight * scale
    styleWidth := some { value := viewportWidth, unit := "px" }
    styleHeight := some { value := viewportHeight, unit := "px" } }

/-- The browser window.  `devicePixel` models `window.devicePixelRatio`:
`none` stands for the property being undefined. -/
structure Window where
  devicePixel : Option ℚ
  deriving DecidableEq

/-- `const viewportScale = window.devicePixelRatio || 1`.  The JS `||`
falls back to `1` on a falsy left operand (undefined or 0; NaN has no
counterpart in exact arithmetic). -/
def viewportScale (w : Window) : ℚ :=
  match w.devicePixel with
  | none => 1
  | some r => if r = 0 then 1 else r

/-- The page document: elements addressable by id. -/
structure Document where
  elems : List (String × CanvasElem)

/-- `document.getElementById`: `none` models a null result. -/
def getElementById (d : Document) (i : String) : Option CanvasElem :=
  (d.elems.find? (fun p => p.1 == i)).map (fun p => p.2)

/-- The top-level setup of the script, with every fallible step in the
`Option` monad: look up the train button (the script assigns its onclick),
look up the viewport, take its 2D context, size the viewport, scale the
context.  The script has no handler or default anywhere, so every failure
propagates as `none`. -/
def scriptInit (d : Document) (w : Window) : Option (CanvasElem × Ctx) :=
  (getElementById d "train").bind (fun _train =>
    (getElementById d "viewport").bind (fun viewport =>
      (viewport.context2d).bind (fun ctxt =>
        some (setupViewport viewport (viewportScale w),
              ctxt.scale (viewportScale w) (viewportScale w)))))

/-- The page state driving the render loop: the simulation, the context,
and how many animation-frame callbacks are pending. -/
structure Page (S : Type) where
  sim : S
  ctx : Ctx
  pending : ℕ

/-- One execution of the `redraw` callback on the page: it runs `redraw`
and its final `requestAnimationFrame(redraw)` schedules one more pending
callback. -/
def redrawPage {S α β : Type} (m : JsMath) (step : S → S)
    (world : S → World α β) (vw vh : ℚ) (p : Page S) : Page S :=
  let r := redraw m step world vw vh p.sim p.ctx
  { sim := r.1, ctx := r.2, pending := p.pending + 1 }

/-- One animation frame fires: if no callback is pending nothing can run
(`none`); otherwise one pending callback is consumed and `redraw` executes. -/
def frameStep {S α β : Type} (m : JsMath) (step : S → S)
    (world : S → World α β) (vw vh : ℚ) (p : Page S) : Option (Page S) :=
  match p.pending with
  | 0 => none
  | Nat.succ n => some (redrawPage m step world vw vh
      { sim := p.sim, ctx := p.ctx, pending := n })

/-- The state right after the script ends: the script calls `redraw()` once
directly, starting from no pending callback. -/
def scriptEnd {S α β : Type} (m : JsMath) (step : S → S)
    (world : S → World α β) (vw vh : ℚ) (s0 : S) (c0 : Ctx) : Page S :=
  redrawPage m step world vw vh { sim := s0, ctx := c0, pending := 0 }

/-- `n` animation frames after the script ends (`none` once no callback is
pending). -/
def runFrames {S α β : Type} (m : JsMath) (step : S → S)
    (world : S → World α β) (vw vh : ℚ) (s0 : S) (c0 : Ctx) :
    ℕ → Option (Page S)
  | 0 => some (scriptEnd m step world vw vh s0 c0)
  | Nat.succ n => (runFrames m step world vw vh s0 c0 n).bind
      (frameStep m step world vw vh)

/-- The x, y pair of the first `moveTo` command of a trace, if any. -/
def firstMoveTo : List DrawCmd → Option (ℚ × ℚ)
  | [] => none
  | DrawCmd.moveTo x y :: _ => some (x, y)
  | _ :: rest => firstMoveTo rest

/-- The x, y pair of the last `lineTo` command of a trace, if any. -/
def lastLineTo : List DrawCmd → Option (ℚ × ℚ)
  | [] => none
  | DrawCmd.lineTo x y :: rest => some ((lastLineTo rest).getD (x, y))
  | _ :: rest => lastLineTo rest

/-- What `redraw` does to the context, as a function of only the fields the
script reads from the snapshots: one `(x, y)` pair per food, one
`(x, y, rotation)` triple per animal. -/
def redrawCtx (m : JsMath) (viewportWidth viewportHeight : ℚ)
    (fcs : List (ℚ × ℚ)) (acs : List (ℚ × ℚ × ℚ)) (c : Ctx) : Ctx :=
  let c1 := c.clearRect 0 0 viewportWidth viewportHeight
  let c2 := fcs.foldl
    (fun acc p => acc.drawCircle m
      (p.1 * viewportWidth) (p.2 * viewportHeight)
      ((0.01 / 2.0) * viewportWidth)) c1
  acs.foldl
    (fun acc p => acc.drawTriangle m
      (p.1 * viewportWidth) (p.2.1 * viewportHeight)
      (0.01 * viewportWidth) p.2.2) c2

/-- A concrete stand-in for the JS math functions, for concrete runs. -/
def someJsMath : JsMath := { sin := fun q => q, cos := fun q => q, pi := 3 }

/-- A concrete world whose snapshots carry numeric extra payloads. -/
def worldA : World ℕ ℕ :=
  { foods := [{ x := 1/2, y := 1/2, extra := 7 }]
    animals := [{ x := 1/4, y := 3/4, rotation := 0, extra := 8 }] }

/-- The same core data as `worldA` but with different extra payloads. -/
def worldB : World Bool Bool :=
  { foods := [{ x := 1/2, y := 1/2, extra := true }]
    animals := [{ x := 1/4, y := 3/4, rotation := 0, extra := false }] }

/-- A fresh drawing context. -/
def emptyCtx : Ctx := { fillStyle := "", strokeStyle := "", commands := [] }

/-- A concrete canvas element of positive size. -/
def v0 : CanvasElem :=
  { width := 100, height := 50, styleWidth := none, styleHeight := none
    context2d := none }

theorem drawTriangle_eq (m : JsMath) (c : Ctx) (x y size rotation : ℚ) :
    Ctx.drawTriangle m c x y size rotation =
      { fillStyle := "rgb(255, 255, 255)"
        strokeStyle := c.strokeStyle
        commands := c.commands ++ triangleTrace m x y size rotation } := by
  simp [Ctx.drawTriangle, Ctx.beginPath, Ctx.moveTo, Ctx.lineTo, Ctx.stroke,
    Ctx.setFillStyle, Ctx.fill, Ctx.emit, triangleTrace]

theorem drawCircle_eq (m : JsMath) (c : Ctx) (x y radius : ℚ) :
    Ctx.drawCircle m c x y radius =
      { fillStyle := "rgb(0, 255, 128)"
        strokeStyle := c.strokeStyle
        commands := c.commands ++ circleTrace m x y radius } := by
  simp [Ctx.drawCircle, Ctx.beginPath, Ctx.arc, Ctx.setFillStyle, Ctx.fill,
    Ctx.emit, circleTrace]

theorem foldl_emits {X : Type} (g : Ctx → X → Ctx) (t : X → List DrawCmd)
    (hg : ∀ (c : Ctx) (x : X), (g c x).commands = c.commands ++ t x) :
    ∀ (l : List X) (c : Ctx),
      (l.foldl g c).commands = c.commands ++ l.flatMap t
  | [], c => by simp
  | x :: xs, c => by
      rw [List.foldl_cons, foldl_emits g t hg xs (g c x), hg]
      simp [List.append_assoc]

theorem foldlCircles_commands {α : Type} (m : JsMath) (vw vh : ℚ)
    (l : List (Food α)) (c : Ctx) :
    (l.foldl
      (fun acc food => acc.drawCircle m
        (food.x * vw) (food.y * vh) ((0.01 / 2.0) * vw)) c).commands =
      c.commands ++ l.flatMap
        (fun food => circleTrace m (food.x * vw) (food.y * vh)
          ((0.01 / 2.0) * vw)) :=
  foldl_emits _ _ (fun c0 food => by rw [drawCircle_eq]) l c

theorem foldlTriangles_commands {β : Type} (m : JsMath) (vw vh : ℚ)
    (l : List (Animal β)) (c : Ctx) :
    (l.foldl
      (fun acc animal => acc.drawTriangle m
        (animal.x * vw) (animal.y * vh) (0.01 * vw) animal.rotation)
      c).commands =
      c.commands ++ l.flatMap
        (fun animal => triangleTrace m (animal.x * vw) (animal.y * vh)
          (0.01 * vw) animal.rotation) :=
  foldl_emits _ _ (fun c0 animal => by rw [drawTriangle_eq]) l c

theorem redraw_ctx_eq {S α β : Type} (m : JsMath) (step : S → S)
    (world : S → World α β) (vw vh : ℚ) (s : S) (c : Ctx) :
    (redraw m step world vw vh s c).2 =
      redrawCtx m vw vh
        (((world (step s)).foods).map foodCore)
        (((world (step s)).animals).map animalCore) c := by
  simp [redraw, redrawCtx, List.foldl_map, foodCore, animalCore]

/-- Claim C1: after the setup step, the canvas buffer dimensions equal the
initial dimensions times the device pixel ratio scale, while the CSS size of
the element is set back to the initial dimensions in px. -/
theorem claim1_viewport_sizing (v : CanvasElem) (w : Window) :
    (setupViewport v (viewportScale w)).width = v.width * viewportScale w ∧
    (setupViewport v (viewportScale w)).height = v.height * viewportScale w ∧
    (setupViewport v (viewportScale w)).styleWidth =
      some { value := v.width, unit := "px" } ∧
    (setupViewport v (viewportScale w)).styleHeight =
      some { value := v.height, unit := "px" } :=
  ⟨rfl, rfl, rfl, rfl⟩

/-- Claim C2: every invocation of redraw clears the full viewport rectangle,
steps the simulation exactly once, then draws one circle per food at the
scaled position with radius (0.01/2)*viewportWidth, then one triangle per
animal at the scaled position with size 0.01*viewportWidth and the animal
rotation, in that order. -/
theorem claim2_redraw_order {S α β : Type} (m : JsMath) (step : S → S)
    (world : S → World α β) (vw vh : ℚ) (s : S) (c : Ctx) :
    (redraw m step world vw vh s c).1 = step s ∧
    (redraw m step world vw vh s c).2.commands =
      c.commands ++
        (DrawCmd.clearRect 0 0 vw vh ::
          ((((world (step s)).foods).flatMap
              (fun food => circleTrace m (food.x * vw) (food.y * vh)
                ((0.01 / 2.0) * vw))) ++
           (((world (step s)).animals).flatMap
              (fun animal => triangleTrace m (animal.x * vw) (animal.y * vh)
                (0.01 * vw) animal.rotation)))) := by
  refine ⟨rfl, ?_⟩
  show ((((world (step s)).animals).foldl _
      ((((world (step s)).foods).foldl _
        (c.clearRect 0 0 vw vh)))).commands) = _
  rw [foldlTriangles_commands, foldlCircles_commands]
  simp [Ctx.clearRect, Ctx.emit, List.append_assoc]

/-- Claim C3: drawTriangle traces a path whose first vertex is
(x - sin(rotation)*size*1.5, y + cos(rotation)*size*1.5) and whose second
and third vertices are placed at angles rotation + 2pi/3 and
rotation + 4pi/3 with distance size, closing back on the first vertex
before stroking and filling. -/
theorem claim3_triangle_vertices (m : JsMath) (c : Ctx) (x y size rot : ℚ) :
    (Ctx.drawTriangle m c x y size rot).commands =
      c.commands ++
        [DrawCmd.beginPath,
         DrawCmd.moveTo (x - m.sin rot * size * 1.5)
                        (y + m.cos rot * size * 1.5),
         DrawCmd.lineTo (x - m.sin (rot + 2 * m.pi / 3) * size)
                        (y + m.cos (rot + 2 * m.pi / 3) * size),
         DrawCmd.lineTo (x - m.sin (rot + 4 * m.pi / 3) * size)
                        (y + m.cos (rot + 4 * m.pi / 3) * size),
         DrawCmd.lineTo (x - m.sin rot * size * 1.5)
                        (y + m.cos rot * size * 1.5),
         DrawCmd.stroke,
         DrawCmd.fill "rgb(255, 255, 255)"] := by
  have h2 : rot + 2.0 / 3.0 * m.pi = rot + 2 * m.pi / 3 := by ring
  have h4 : rot + 4.0 / 3.0 * m.pi = rot + 4 * m.pi / 3 := by ring
  rw [drawTriangle_eq]
  unfold triangleTrace
  rw [h2, h4]

/-- Claim C9: the path traced by drawTriangle is closed: the last lineTo has
exactly the coordinates of the initial moveTo. -/
theorem claim9_triangle_path_closed (m : JsMath) (fs ss : String)
    (x y size rot : ℚ) :
    lastLineTo ((Ctx.drawTriangle m
        { fillStyle := fs, strokeStyle := ss, commands := [] }
        x y size rot).commands) =
      firstMoveTo ((Ctx.drawTriangle m
        { fillStyle := fs, strokeStyle := ss, commands := [] }
        x y size rot).commands) ∧
    firstMoveTo ((Ctx.drawTriangle m
        { fillStyle := fs, strokeStyle := ss, commands := [] }
        x y size rot).commands) =
      some (x - m.sin rot * size * 1.5, y + m.cos rot * size * 1.5) :=
  ⟨rfl, rfl⟩

/-- Claim C4: the render loop is perpetual: the script ends by invoking
redraw once, every redraw invocation schedules one more via
requestAnimationFrame, and so after any number of animation frames there is
always exactly one pending redraw callback: the loop never reaches a state
with none pending. -/
theorem claim4_perpetual_loop {S α β : Type} (m : JsMath) (step : S → S)
    (world : S → World α β) (vw vh : ℚ) (s0 : S) (c0 : Ctx) (n : ℕ) :
    ∃ p : Page S,
      runFrames m step world vw vh s0 c0 n = some p ∧ p.pending = 1 := by
  induction n with
  | zero => exact ⟨scriptEnd m step world vw vh s0 c0, rfl, rfl⟩
  | succ n ih =>
    obtain ⟨p, hp, hpend⟩ := ih
    obtain ⟨ps, pc, ppend⟩ := p
    change ppend = 1 at hpend
    subst hpend
    refine ⟨redrawPage m step world vw vh
      { sim := ps, ctx := pc, pending := 0 }, ?_, rfl⟩
    rw [runFrames, hp]
    rfl

/-- Claim C5 as stated is false: drawTriangle overwrites the fillStyle field
of the context, so a context that had fillStyle red before the call does not
keep it. -/
theorem claim5_counterexample :
    (Ctx.drawTriangle someJsMath
      { fillStyle := "red", strokeStyle := "black", commands := [] }
      0 0 1 0).fillStyle ≠ "red" := by
  decide

/-- Claim C5, amended: the two drawing helpers hold no state of their own
and their effect is determined by their arguments alone: each call appends a
trace that depends only on the arguments, leaves every other context field
(strokeStyle) unchanged, and the one field written besides the trace is
fillStyle, set to a fixed constant independent of the previous state. -/
theorem claim5_helpers_frame (m : JsMath) (c : Ctx)
    (x y size rot radius : ℚ) :
    Ctx.drawTriangle m c x y size rot =
      { fillStyle := "rgb(255, 255, 255)"
        strokeStyle := c.strokeStyle
        commands := c.commands ++ triangleTrace m x y size rot } ∧
    Ctx.drawCircle m c x y radius =
      { fillStyle := "rgb(0, 255, 128)"
        strokeStyle := c.strokeStyle
        commands := c.commands ++ circleTrace m x y radius } :=
  ⟨drawTriangle_eq m c x y size rot, drawCircle_eq m c x y radius⟩

/-- Claim C6: the script has no handler, default or retry anywhere: if the
train or viewport lookup yields null, or the viewport context is undefined,
the whole setup fails with none. -/
theorem claim6_failures_propagate (d : Document) (w : Window)
    (h : getElementById d "train" = none ∨
         getElementById d "viewport" = none ∨
         (getElementById d "viewport").bind CanvasElem.context2d = none) :
    scriptInit d w = none := by
  unfold scriptInit
  rcases h with h | h | h
  · rw [h]
    rfl
  · cases h1 : getElementById d "train" with
    | none => rfl
    | some t =>
      simp only [Option.some_bind]
      rw [h]
      rfl
  · cases h1 : getElementById d "train" with
    | none => rfl
    | some t =>
      cases h2 : getElementById d "viewport" with
      | none => rfl
      | some v =>
        simp only [Option.some_bind]
        rw [h2] at h
        simp only [Option.some_bind] at h
        rw [h]
        rfl

/-- Witness for C6 at a concrete empty document. -/
theorem claim6_witness :
    (getElementById { elems := [] } "train" = none ∨
     getElementById { elems := [] } "viewport" = none ∨
     (getElementById { elems := [] } "viewport").bind
        CanvasElem.context2d = none) ∧
    scriptInit { elems := [] } { devicePixel := none } = none :=
  ⟨Or.inl rfl,
   claim6_failures_propagate { elems := [] } { devicePixel := none }
     (Or.inl rfl)⟩

/-- Claim C7: redraw reads only x and y of each food snapshot and only x, y,
rotation of each animal snapshot: two simulations whose stepped worlds agree
on exactly those fields produce the same drawing context, whatever other
data the snapshots carry. -/
theorem claim7_reads_only_core {S1 S2 α1 α2 β1 β2 : Type}
    (m : JsMath) (step1 : S1 → S1) (world1 : S1 → World α1 β1)
    (step2 : S2 → S2) (world2 : S2 → World α2 β2)
    (vw vh : ℚ) (s1 : S1) (s2 : S2) (c : Ctx)
    (hf : ((world1 (step1 s1)).foods).map foodCore =
          ((world2 (step2 s2)).foods).map foodCore)
    (ha : ((world1 (step1 s1)).animals).map animalCore =
          ((world2 (step2 s2)).animals).map animalCore) :
    (redraw m step1 world1 vw vh s1 c).2 =
      (redraw m step2 world2 vw vh s2 c).2 := by
  rw [redraw_ctx_eq, redraw_ctx_eq, hf, ha]

/-- Witness for C7: two concrete worlds that differ in the extra payloads of
every snapshot but agree on the read fields give identical contexts. -/
theorem claim7_witness :
    ((id (id worldA) : World ℕ ℕ).foods).map foodCore =
      ((id (id worldB) : World Bool Bool).foods).map foodCore ∧
    ((id (id worldA) : World ℕ ℕ).animals).map animalCore =
      ((id (id worldB) : World Bool Bool).animals).map animalCore ∧
    (redraw someJsMath id id 10 10 worldA emptyCtx).2 =
      (redraw someJsMath id id 10 10 worldB emptyCtx).2 :=
  ⟨rfl, rfl,
   claim7_reads_only_core someJsMath id id id id 10 10 worldA worldB emptyCtx
     rfl rfl⟩

/-- Claim C8: viewportScale is never zero: a falsy devicePixelRatio
(undefined or 0) defaults to 1, and for a browser-supplied nonnegative
ratio and a canvas of positive initial size the resized buffer dimensions
stay positive. -/
theorem claim8_scale_default (w : Window) (v : CanvasElem)
    (hr : 0 ≤ (Window.devicePixel w).getD 1)
    (hw : 0 < v.width) (hh : 0 < v.height) :
    viewportScale w ≠ 0 ∧
    ((Window.devicePixel w = none ∨ Window.devicePixel w = some 0) →
      viewportScale w = 1) ∧
    0 < (setupViewport v (viewportScale w)).width ∧
    0 < (setupViewport v (viewportScale w)).height := by
  have hpos : 0 < viewportScale w := by
    unfold viewportScale
    cases hd : Window.devicePixel w with
    | none => norm_num
    | some r =>
      by_cases h0 : r = 0
      · simp [h0]
      · simp only [h0, if_false]
        rw [hd] at hr
        simp only [Option.getD_some] at hr
        exact lt_of_le_of_ne hr (Ne.symm h0)
  refine ⟨ne_of_gt hpos, ?_, ?_, ?_⟩
  · intro hcase
    unfold viewportScale
    rcases hcase with h | h
    · rw [h]
    · rw [h]
      simp
  · show 0 < v.width * viewportScale w
    exact mul_pos hw hpos
  · show 0 < v.height * viewportScale w
    exact mul_pos hh hpos

/-- Witness for C8 at an undefined devicePixelRatio and a 100 by 50 canvas. -/
theorem claim8_witness :
    (0 ≤ (Window.devicePixel { devicePixel := none }).getD 1 ∧
     0 < v0.width ∧ 0 < v0.height) ∧
    (viewportScale { devicePixel := none } ≠ 0 ∧
     ((Window.devicePixel { devicePixel := none } = none ∨
       Window.devicePixel { devicePixel := none } = some 0) →
        viewportScale { devicePixel := none } = 1) ∧
     0 < (setupViewport v0 (viewportScale { devicePixel := none })).width ∧
     0 < (setupViewport v0 (viewportScale { devicePixel := none })).height) :=
  ⟨⟨by decide, by decide, by decide⟩,
   claim8_scale_default { devicePixel := none } v0
     (by decide) (by decide) (by decide)⟩

/-- Claim C10: each helper sets the fill colour to its fixed constant before
filling: after any drawTriangle call the fillStyle is
rgb(255, 255, 255) and its final traced command fills with that colour;
after any drawCircle call the fillStyle is rgb(0, 255, 128) and its final
traced command fills with that colour, whatever the fillStyle was before. -/
theorem claim10_fill_colors (m : JsMath) (c1 c2 : Ctx)
    (x y size rot xr yr radius : ℚ) :
    (Ctx.drawTriangle m c1 x y size rot).fillStyle = "rgb(255, 255, 255)" ∧
    (Ctx.drawTriangle m c1 x y size rot).commands.getLast? =
      some (DrawCmd.fill "rgb(255, 255, 255)") ∧
    (Ctx.drawCircle m c2 xr yr radius).fillStyle = "rgb(0, 255, 128)" ∧
    (Ctx.drawCircle m c2 xr yr radius).commands.getLast? =
      some (DrawCmd.fill "rgb(0, 255, 128)") := by
  rw [drawTriangle_eq, drawCircle_eq]
  refine ⟨rfl, ?_, rfl, ?_⟩
  · simp [triangleTrace, List.getLast?_append]
  · simp [circleTrace, List.getLast?_append]
